import Mathlib

/-!
# Address-Book API: coordinate normalizer and proximity engine

Shallow embedding of the repository's core logic, translated from the
Python sources.  The repository contains two parallel implementations:

* the structured package: `app/utils.py` (`parse_coordinate`, `haversine`),
  `app/crud/address.py` (`get_addresses_within_radius`) and
  `app/services/address_service.py` (`find_nearby_addresses`);
* a flat legacy variant: `utils.py`, `crud.py`, `main.py`.

Both variants share the same `parse_coordinate` logic; they differ in the
distance pipeline (range validation, per-candidate error handling, the
radius filter's lower bound, and radius validation), so both pipelines are
embedded separately below.

Modelling conventions:
* Python `float` values are idealized as exact rationals plus the
  non-finite values `inf`, `-inf`, `nan` (IEEE-754 rounding is out of
  scope); the real-valued trigonometric pipeline is modelled over `ℝ`.
* Python strings are modelled as `List Char`; the character classes `\s`
  and `\d` of the regex are modelled over their ASCII content, which
  covers every input form the repository documents and tests.
* Exceptions are modelled with `Except`: `ValueError` raised for an
  unparseable coordinate is `Err.invalidCoordinateFormat`, the range
  `ValueError` is `Err.coordinateOutOfRange`, and the service-level
  radius `ValueError` is `Err.invalidRadius`.
-/

namespace AddressBook

/-- Model of a Python `float` value: a finite rational or one of the
non-finite values `inf`, `-inf`, `nan`.  Finite values are exact
rationals (decimal-literal parsing is exact in this idealization). -/
inductive PyFloat where
  | finite (q : ℚ)
  | inf
  | negInf
  | nan
deriving DecidableEq

/-- `True` exactly on finite float values. -/
def PyFloat.isFinite : PyFloat → Bool
  | .finite _ => true
  | _ => false

/-- A coordinate input as accepted by `parse_coordinate`
(`Union[str, float, int]`): already numeric, or a text value. -/
inductive Coord where
  | num (x : PyFloat)
  | text (s : List Char)
deriving DecidableEq

/-- The error kinds the core can raise (Python `ValueError`s,
distinguished here by their role, as in the spec's error model). -/
inductive Err where
  | invalidCoordinateFormat
  | coordinateOutOfRange
  | invalidRadius
deriving DecidableEq

/-- A stored location record (`Address` model: `id`, `name`, and raw
`latitude` / `longitude` columns that are parsed on demand). -/
structure Address where
  id : Nat
  name : List Char
  latitude : Coord
  longitude : Coord
deriving DecidableEq

/-- ASCII content of the character class `\s` (and of `str.strip`). -/
def isPySpace (c : Char) : Bool :=
  c == ' ' || c == '\t' || c == '\n' || c == '\r' || c == '\x0b' || c == '\x0c'

/-- `str.strip()`: drop whitespace from both ends. -/
def pyStrip (l : List Char) : List Char :=
  ((l.dropWhile isPySpace).reverse.dropWhile isPySpace).reverse

/-- Numeric value of a digit string (most significant first). -/
def digitsToNat (ds : List Char) : Nat :=
  ds.foldl (fun n c => 10 * n + (c.toNat - '0'.toNat)) 0

/-- Exact value of `float("d1.d2")` for digit strings `d1`, `d2`:
the rational `d1.d2 = (d1 * 10^|d2| + d2) / 10^|d2|`. -/
def ratOfParts (d1 d2 : List Char) : ℚ :=
  mkRat (digitsToNat d1 * 10 ^ d2.length + digitsToNat d2) (10 ^ d2.length)

/-- Model of the regex fragment `\d*\.?\d+` matched (with backtracking)
at the head of the string: a greedy digit run, optionally a dot followed
by a nonempty digit run.  When the dot is present but no digits follow
it, the engine backtracks and the dot is left unconsumed; when no digits
can be matched at all the group fails.  Returns the exact numeric value
of the matched token (`float` of group 1) and the unconsumed rest. -/
def matchUnsignedNumber (l : List Char) : Option (ℚ × List Char) :=
  let d1 := l.takeWhile Char.isDigit
  let r1 := l.dropWhile Char.isDigit
  match r1 with
  | '.' :: r2 =>
    let d2 := r2.takeWhile Char.isDigit
    let r3 := r2.dropWhile Char.isDigit
    if d2.isEmpty then
      if d1.isEmpty then none else some ((digitsToNat d1 : ℚ), r1)
    else
      some (ratOfParts d1 d2, r3)
  | _ => if d1.isEmpty then none else some ((digitsToNat d1 : ℚ), r1)

/-- Model of `[-+]?\d*\.?\d+`: an optional sign, then the number.  (If a
sign is present but no number follows, dropping the optional sign cannot
help, because a sign character can never start `\d*\.?\d+`.) -/
def matchSignedNumber : List Char → Option (ℚ × List Char)
  | '-' :: r => (matchUnsignedNumber r).map (fun p => (-p.1, p.2))
  | '+' :: r => matchUnsignedNumber r
  | l => matchUnsignedNumber l

/-- The direction letters `[NSEW]` under `re.IGNORECASE`. -/
def isDirChar (c : Char) : Bool :=
  c == 'N' || c == 'S' || c == 'E' || c == 'W' ||
  c == 'n' || c == 's' || c == 'e' || c == 'w'

/-- Model of the regex tail `\s*°?\s*([NSEW])?`: greedy whitespace, an
optional degree sign, greedy whitespace, and an optional direction
letter (all parts optional, matched left to right).  Returns group 2 and
the unconsumed rest of the string. -/
def matchSuffix (l : List Char) : Option Char × List Char :=
  let l1 := l.dropWhile isPySpace
  let l2 := match l1 with
    | '°' :: r => r
    | _ => l1
  let l3 := l2.dropWhile isPySpace
  match l3 with
  | c :: r => if isDirChar c then (some c, r) else (none, l3)
  | [] => (none, [])

/-- Model of `re.match(r"([-+]?\d*\.?\d+)\s*°?\s*([NSEW])?", s, re.IGNORECASE)`:
anchored at the start of the string only, so an arbitrary unconsumed
suffix is returned (and ignored by the caller).  Yields the value of
group 1, group 2, and the rest. -/
def coordMatch (l : List Char) : Option (ℚ × Option Char × List Char) :=
  (matchSignedNumber l).map (fun p =>
    let s := matchSuffix p.2
    (p.1, s.1, s.2))

/-- `direction.upper() in ['S', 'W']`. -/
def isSWChar (c : Char) : Bool :=
  c == 'S' || c == 's' || c == 'W' || c == 'w'

/-- Case-insensitive comparison of a string with a (lowercase) word. -/
def matchesWordCI (l : List Char) (w : List Char) : Bool :=
  l.map Char.toLower == w

/-- Exponent tail of a Python float literal: either the end of the
string, or `e`/`E`, an optional sign and a nonempty digit run consuming
the whole rest.  Applies the scale to the significand `q`. -/
def parseExpPart (q : ℚ) : List Char → Option ℚ
  | [] => some q
  | c :: r =>
    if c == 'e' || c == 'E' then
      let p := match r with
        | '-' :: r1 => (true, r1)
        | '+' :: r1 => (false, r1)
        | _ => (false, r)
      let ds := p.2.takeWhile Char.isDigit
      let rest := p.2.dropWhile Char.isDigit
      if ds.isEmpty || !rest.isEmpty then none
      else some (if p.1 then q / 10 ^ digitsToNat ds else q * 10 ^ digitsToNat ds)
    else none

/-- Significand of a Python float literal: `digits [. digits]` or
`. digits` (a trailing lone dot is allowed, `float("12.") == 12.0`). -/
def parseSignificand (l : List Char) : Option (ℚ × List Char) :=
  let d1 := l.takeWhile Char.isDigit
  let r1 := l.dropWhile Char.isDigit
  match r1 with
  | '.' :: r2 =>
    let d2 := r2.takeWhile Char.isDigit
    let r3 := r2.dropWhile Char.isDigit
    if d1.isEmpty && d2.isEmpty then none else some (ratOfParts d1 d2, r3)
  | _ => if d1.isEmpty then none else some ((digitsToNat d1 : ℚ), r1)

/-- Model of Python `float(s)` on an already-stripped string: an optional
sign, then `inf`/`infinity`/`nan` (case-insensitive) or a decimal
significand with an optional exponent, consuming the entire string.
(Digit-group underscores, which Python also accepts, are not modelled;
no repository input uses them.) -/
def pyFloatOfString (l : List Char) : Option PyFloat :=
  let p := match l with
    | '-' :: r => (true, r)
    | '+' :: r => (false, r)
    | _ => (false, l)
  if matchesWordCI p.2 ['i', 'n', 'f'] || matchesWordCI p.2 ['i', 'n', 'f', 'i', 'n', 'i', 't', 'y'] then
    some (if p.1 then .negInf else .inf)
  else if matchesWordCI p.2 ['n', 'a', 'n'] then
    some .nan
  else
    match parseSignificand p.2 with
    | some s =>
      match parseExpPart s.1 s.2 with
      | some v => some (.finite (if p.1 then -v else v))
      | none => none
    | none => none

/-- `parse_coordinate` (`app/utils.py` lines 12-52; the flat `utils.py`
lines 5-33 has the same logic, with the fallback `float(coord_str)`
raising `ValueError` directly instead of re-wrapping it):
a numeric input is returned unchanged; a text input is stripped and
matched against the coordinate regex, the matched value is negated for a
`S`/`W` direction letter; if the regex fails, `float` of the stripped
text is tried, and failure of both is an invalid-coordinate error. -/
def parse_coordinate : Coord → Except Err PyFloat
  | .num x => .ok x
  | .text s =>
    let cs := pyStrip s
    match coordMatch cs with
    | some (v, dir, _) =>
      match dir with
      | some c => if isSWChar c then .ok (.finite (-v)) else .ok (.finite v)
      | none => .ok (.finite v)
    | none =>
      match pyFloatOfString cs with
      | some x => .ok x
      | none => .error .invalidCoordinateFormat

instance {ε α : Type} [DecidableEq ε] [DecidableEq α] : DecidableEq (Except ε α) := fun a b =>
  match a, b with
  | .ok x, .ok y => decidable_of_iff (x = y) (by simp)
  | .error x, .error y => decidable_of_iff (x = y) (by simp)
  | .ok _, .error _ => isFalse (by simp)
  | .error _, .ok _ => isFalse (by simp)

/-- `math.radians`: degrees to radians. -/
noncomputable def radians (x : ℝ) : ℝ := x * Real.pi / 180

/-- `math.atan2 y x`, modelled as the argument of the complex number
`x + y*I` (the same quadrant convention as C's `atan2`). -/
noncomputable def atan2 (y x : ℝ) : ℝ := Complex.arg ⟨x, y⟩

/-- The haversine formula as computed by both `haversine` variants once
the four coordinates are numeric, with Earth radius `R = 6371` km. -/
noncomputable def haversineReal (lat1 lon1 lat2 lon2 : ℝ) : ℝ :=
  let dLat := radians (lat2 - lat1)
  let dLon := radians (lon2 - lon1)
  let a := Real.sin (dLat / 2) ^ 2 +
    Real.cos (radians lat1) * Real.cos (radians lat2) * Real.sin (dLon / 2) ^ 2
  let c := 2 * atan2 (Real.sqrt a) (Real.sqrt (1 - a))
  6371 * c

/-- The real number denoted by a finite float (junk value `0` on the
non-finite values, which both pipelines rule out before computing). -/
noncomputable def PyFloat.val : PyFloat → ℝ
  | .finite q => (q : ℝ)
  | _ => 0

/-- The latitude range test `-90 <= lat <= 90` of `app/utils.py`.  A
chained Python comparison involving `nan` is false, and `inf`/`-inf`
violate one of the two bounds, so every non-finite value fails it. -/
def latInRange : PyFloat → Bool
  | .finite q => decide (-90 ≤ q ∧ q ≤ 90)
  | _ => false

/-- The longitude range test `-180 <= lon <= 180` of `app/utils.py`. -/
def lonInRange : PyFloat → Bool
  | .finite q => decide (-180 ≤ q ∧ q ≤ 180)
  | _ => false

/-- `haversine` of `app/utils.py` (lines 55-100): parse the four
coordinates in order (the first parse failure propagates), validate the
two latitudes and then the two longitudes against their ranges, then
compute the haversine distance. -/
noncomputable def haversineApp (lat1 lon1 lat2 lon2 : Coord) : Except Err ℝ :=
  match parse_coordinate lat1, parse_coordinate lon1,
        parse_coordinate lat2, parse_coordinate lon2 with
  | .ok p1, .ok q1, .ok p2, .ok q2 =>
    if latInRange p1 && latInRange p2 then
      if lonInRange q1 && lonInRange q2 then
        .ok (haversineReal p1.val q1.val p2.val q2.val)
      else .error .coordinateOutOfRange
    else .error .coordinateOutOfRange
  | .error e, _, _, _ => .error e
  | _, .error e, _, _ => .error e
  | _, _, .error e, _ => .error e
  | _, _, _, .error e => .error e

/-- `haversine` of the flat `utils.py` (lines 35-58): parse the four
coordinates and compute the distance with no range validation at all.
(On a non-finite operand Python's `math` layer cannot produce a kept
distance — `math.sin(inf)` raises and a `nan` distance fails every
comparison — modelled here as a failure; no stored record the claims
exercise is non-finite.) -/
noncomputable def haversineFlat (lat1 lon1 lat2 lon2 : Coord) : Except Err ℝ :=
  match parse_coordinate lat1, parse_coordinate lon1,
        parse_coordinate lat2, parse_coordinate lon2 with
  | .ok p1, .ok q1, .ok p2, .ok q2 =>
    if p1.isFinite && q1.isFinite && p2.isFinite && q2.isFinite then
      .ok (haversineReal p1.val q1.val p2.val q2.val)
    else .error .coordinateOutOfRange
  | .error e, _, _, _ => .error e
  | _, .error e, _, _ => .error e
  | _, _, .error e, _ => .error e
  | _, _, _, .error e => .error e

/-- The comparison `list.sort(key=lambda x: x[1])` sorts by: distance of
one record-distance pair at most that of another. -/
def distLE (p q : Address × ℝ) : Prop := p.2 ≤ q.2

noncomputable instance : DecidableRel distLE :=
  fun p q => inferInstanceAs (Decidable (p.2 ≤ q.2))

instance : IsTotal (Address × ℝ) distLE := ⟨fun a b => le_total a.2 b.2⟩

instance : IsTrans (Address × ℝ) distLE := ⟨fun _ _ _ => le_trans⟩

/-- Python's `list.sort` is a stable ascending sort; its output is the
unique stable, ascending-by-key rearrangement, modelled by stable
insertion sort on the distance key. -/
noncomputable def sortByDist (l : List (Address × ℝ)) : List (Address × ℝ) :=
  List.insertionSort distLE l

/-- The sublist of record-distance pairs carrying a given distance key
(used to state stability of the sort). -/
noncomputable def keyFilter (k : ℝ) (l : List (Address × ℝ)) : List (Address × ℝ) :=
  l.filter (fun p => decide (p.2 = k))

/-- The filter loop of `get_addresses_within_radius` in
`app/crud/address.py` (lines 166-179): each stored record's distance
from the center is attempted; a per-candidate exception is caught and
the candidate skipped; a successful distance is kept together with the
record when `0 <= dist <= distance_km` (both bounds inclusive). -/
noncomputable def keptPairsApp (lat lon : Coord) (r : ℝ) (addrs : List Address) :
    List (Address × ℝ) :=
  addrs.filterMap (fun a =>
    match haversineApp lat lon a.latitude a.longitude with
    | .ok d => if 0 ≤ d ∧ d ≤ r then some (a, d) else none
    | .error _ => none)

/-- `get_addresses_within_radius` of `app/crud/address.py` (lines
141-192): filter as above, sort the kept pairs by distance (stable,
closest first) and return the records without the distances. -/
noncomputable def getAddressesWithinRadiusApp (lat lon : Coord) (r : ℝ)
    (addrs : List Address) : List Address :=
  (sortByDist (keptPairsApp lat lon r addrs)).map Prod.fst

/-- `find_nearby_addresses` of `app/services/address_service.py` (lines
141-183), instrumented with the number of haversine invocations the call
performs: the radius guard `distance_km <= 0` raises before the record
store is consulted, so no distance is computed on that path; otherwise
the crud loop invokes `haversine` exactly once per stored record. -/
noncomputable def findNearbyAddressesT (lat lon : Coord) (r : ℝ)
    (addrs : List Address) : Except Err (List Address) × Nat :=
  if r ≤ 0 then (.error .invalidRadius, 0)
  else (.ok (getAddressesWithinRadiusApp lat lon r addrs), addrs.length)

/-- `find_nearby_addresses` without the instrumentation. -/
noncomputable def findNearbyAddresses (lat lon : Coord) (r : ℝ)
    (addrs : List Address) : Except Err (List Address) :=
  (findNearbyAddressesT lat lon r addrs).1

/-- The filter loop of `get_addresses_within_radius` in the flat
`crud.py` (lines 29-41), instrumented with the number of haversine
invocations attempted: candidates are processed in order, an exception
aborts the whole query (there is no per-candidate handler), and a
distance is kept only when `0 < dist <= distance_km` (strict lower
bound). -/
noncomputable def scanFlat (lat lon : Coord) (r : ℝ) :
    List Address → Except Err (List (Address × ℝ)) × Nat
  | [] => (.ok [], 0)
  | a :: rest =>
    match haversineFlat lat lon a.latitude a.longitude with
    | .error e => (.error e, 1)
    | .ok d =>
      match scanFlat lat lon r rest with
      | (.ok tail, n) => (.ok (if 0 < d ∧ d ≤ r then (a, d) :: tail else tail), n + 1)
      | (.error e, n) => (.error e, n + 1)

/-- The flat `/addresses/nearby` endpoint (`main.py` lines 45-52) calls
the flat crud directly with no radius validation; the crud sorts the
kept pairs and returns the records.  Instrumented with the haversine
invocation count. -/
noncomputable def nearbyAddressesFlatT (lat lon : Coord) (r : ℝ)
    (addrs : List Address) : Except Err (List Address) × Nat :=
  match scanFlat lat lon r addrs with
  | (.ok kept, n) => (.ok ((sortByDist kept).map Prod.fst), n)
  | (.error e, n) => (.error e, n)

/-- `get_addresses_within_radius` of the flat `crud.py` (which is also
the full behavior of the flat nearby endpoint). -/
noncomputable def getAddressesWithinRadiusFlat (lat lon : Coord) (r : ℝ)
    (addrs : List Address) : Except Err (List Address) :=
  (nearbyAddressesFlatT lat lon r addrs).1

/-- A concrete stored record sitting exactly at the query center
`(10, 20)`, used in the concrete instances below. -/
def centerAddr : Address :=
  ⟨1, ['h', 'o', 'm', 'e'], .num (.finite 10), .num (.finite 20)⟩

/-- A concrete stored record whose latitude text `"abc"` is unparseable
(the regex fails and so does the `float` fallback). -/
def badAddr : Address :=
  ⟨2, ['b', 'a', 'd'], .text ['a', 'b', 'c'], .num (.finite 0)⟩

/-! ## Helper lemmas -/

theorem atan2_nonneg (y x : ℝ) (hy : 0 ≤ y) : 0 ≤ atan2 y x := by
  unfold atan2
  exact Complex.arg_nonneg_iff.mpr hy

theorem haversineReal_self (x y : ℝ) : haversineReal x y x y = 0 := by
  have h1 : (⟨1, 0⟩ : ℂ) = 1 := by
    simp [Complex.ext_iff]
  simp [haversineReal, radians, atan2, sub_self, h1, Complex.arg_one]

theorem haversineReal_nonneg (lat1 lon1 lat2 lon2 : ℝ) :
    0 ≤ haversineReal lat1 lon1 lat2 lon2 := by
  unfold haversineReal
  exact mul_nonneg (by norm_num)
    (mul_nonneg (by norm_num) (atan2_nonneg _ _ (Real.sqrt_nonneg _)))

theorem haversineReal_symm (a b c d : ℝ) :
    haversineReal a b c d = haversineReal c d a b := by
  have hsin : ∀ u v : ℝ,
      Real.sin ((u - v) * Real.pi / 180 / 2) ^ 2
        = Real.sin ((v - u) * Real.pi / 180 / 2) ^ 2 := by
    intro u v
    have h : (u - v) * Real.pi / 180 / 2 = -((v - u) * Real.pi / 180 / 2) := by ring
    rw [h, Real.sin_neg, neg_sq]
  simp only [haversineReal, radians]
  rw [hsin c a, hsin d b,
    mul_comm (Real.cos (a * Real.pi / 180)) (Real.cos (c * Real.pi / 180))]

theorem keyFilter_cons (k : ℝ) (x : Address × ℝ) (l : List (Address × ℝ)) :
    keyFilter k (x :: l) = if x.2 = k then x :: keyFilter k l else keyFilter k l := by
  by_cases h : x.2 = k <;> simp [keyFilter, h]

theorem keyFilter_orderedInsert (k : ℝ) (a : Address × ℝ) (l : List (Address × ℝ)) :
    keyFilter k (List.orderedInsert distLE a l) =
      if a.2 = k then a :: keyFilter k l else keyFilter k l := by
  induction l with
  | nil =>
    rw [List.orderedInsert_nil, keyFilter_cons]
  | cons b t ih =>
    by_cases hab : distLE a b
    · rw [List.orderedInsert, if_pos hab, keyFilter_cons, keyFilter_cons]
    · have hba : b.2 < a.2 := lt_of_not_le hab
      rw [List.orderedInsert, if_neg hab, keyFilter_cons, ih, keyFilter_cons]
      by_cases hak : a.2 = k
      · have hbk : ¬b.2 = k := by
          intro hk
          exact absurd (hk ▸ hba) (by simp [hak])
        rw [if_pos hak, if_neg hbk, if_pos hak, if_neg hbk]
      · rw [if_neg hak, if_neg hak]

theorem keyFilter_sortByDist (k : ℝ) (l : List (Address × ℝ)) :
    keyFilter k (sortByDist l) = keyFilter k l := by
  induction l with
  | nil => rfl
  | cons a t ih =>
    have h : sortByDist (a :: t) = List.orderedInsert distLE a (sortByDist t) := rfl
    rw [h, keyFilter_orderedInsert, ih, keyFilter_cons]

theorem sortByDist_sorted (l : List (Address × ℝ)) :
    (sortByDist l).Pairwise distLE :=
  List.sorted_insertionSort distLE l

theorem sortByDist_perm (l : List (Address × ℝ)) : List.Perm (sortByDist l) l :=
  List.perm_insertionSort distLE l

theorem haversineApp_center :
    haversineApp (.num (.finite 10)) (.num (.finite 20))
      centerAddr.latitude centerAddr.longitude = .ok 0 := by
  have hl : latInRange (.finite 10) = true := by decide
  have hm : lonInRange (.finite 20) = true := by decide
  simp only [centerAddr, haversineApp, parse_coordinate, hl, hm, Bool.and_self, if_true]
  rw [haversineReal_self]

theorem haversineFlat_center :
    haversineFlat (.num (.finite 10)) (.num (.finite 20))
      centerAddr.latitude centerAddr.longitude = .ok 0 := by
  simp only [centerAddr, haversineFlat, parse_coordinate, PyFloat.isFinite,
    Bool.and_self, if_true]
  rw [haversineReal_self]

theorem parse_coordinate_abc :
    parse_coordinate (.text ['a', 'b', 'c']) = .error .invalidCoordinateFormat := by
  decide

theorem haversineApp_bad :
    haversineApp (.num (.finite 10)) (.num (.finite 20))
      badAddr.latitude badAddr.longitude = .error .invalidCoordinateFormat := by
  simp only [badAddr, haversineApp, parse_coordinate_abc]
  simp [parse_coordinate]

theorem haversineFlat_bad :
    haversineFlat (.num (.finite 10)) (.num (.finite 20))
      badAddr.latitude badAddr.longitude = .error .invalidCoordinateFormat := by
  simp only [badAddr, haversineFlat, parse_coordinate_abc]
  simp [parse_coordinate]

theorem haversineApp_ok_imp {a b c d : Coord} {x : ℝ}
    (h : haversineApp a b c d = .ok x) :
    ∃ w1 w2 w3 w4 : PyFloat, x = haversineReal w1.val w2.val w3.val w4.val := by
  unfold haversineApp at h
  split at h
  · rename_i p1 q1 p2 q2 hp1 hq1 hp2 hq2
    split_ifs at h
    · simp only [Except.ok.injEq] at h
      exact ⟨p1, q1, p2, q2, h.symm⟩
  all_goals simp_all

theorem coordMatch_N_tail (u : List Char) :
    coordMatch ('2' :: '2' :: '.' :: '7' :: ' ' :: 'N' :: u)
      = some (mkRat 227 10, some 'N', u) := by
  unfold coordMatch
  rw [show matchSignedNumber ('2' :: '2' :: '.' :: '7' :: ' ' :: 'N' :: u)
      = some (mkRat 227 10, ' ' :: 'N' :: u) from rfl]
  rfl

theorem pyStrip_N_append (t : List Char) :
    ∃ u, pyStrip ('2' :: '2' :: '.' :: '7' :: ' ' :: 'N' :: t)
      = '2' :: '2' :: '.' :: '7' :: ' ' :: 'N' :: u := by
  have hl : ('2' :: '2' :: '.' :: '7' :: ' ' :: 'N' :: t) = "22.7 N".toList ++ t := rfl
  rw [hl]
  unfold pyStrip
  have h1 : List.dropWhile isPySpace ("22.7 N".toList ++ t) = "22.7 N".toList ++ t := rfl
  rw [h1, List.reverse_append, List.dropWhile_append]
  by_cases hc : (List.dropWhile isPySpace t.reverse).isEmpty = true
  · rw [if_pos hc]
    exact ⟨[], rfl⟩
  · rw [if_neg hc]
    refine ⟨(List.dropWhile isPySpace t.reverse).reverse, ?_⟩
    rw [List.reverse_append]
    rfl

/-! ## Claim theorems -/

/-- C8: for valid points (all four coordinates parse to finite values in
range), the computed distance is symmetric in the two points. -/
theorem claim8_haversine_app_symm (lat1 lon1 lat2 lon2 : Coord) (p1 q1 p2 q2 : ℚ)
    (h1 : parse_coordinate lat1 = .ok (.finite p1))
    (h2 : parse_coordinate lon1 = .ok (.finite q1))
    (h3 : parse_coordinate lat2 = .ok (.finite p2))
    (h4 : parse_coordinate lon2 = .ok (.finite q2))
    (hp1 : -90 ≤ p1 ∧ p1 ≤ 90) (hp2 : -90 ≤ p2 ∧ p2 ≤ 90)
    (hq1 : -180 ≤ q1 ∧ q1 ≤ 180) (hq2 : -180 ≤ q2 ∧ q2 ≤ 180) :
    haversineApp lat1 lon1 lat2 lon2 = haversineApp lat2 lon2 lat1 lon1 := by
  have l1 : latInRange (.finite p1) = true := by simpa [latInRange] using hp1
  have l2 : latInRange (.finite p2) = true := by simpa [latInRange] using hp2
  have m1 : lonInRange (.finite q1) = true := by simpa [lonInRange] using hq1
  have m2 : lonInRange (.finite q2) = true := by simpa [lonInRange] using hq2
  simp only [haversineApp, h1, h2, h3, h4, l1, l2, m1, m2, Bool.and_self, if_true,
    Bool.and_true, Bool.true_and, ite_true]
  rw [haversineReal_symm]

/-- C8 witness: symmetry applied at the concrete valid points
(10, 20) and (30, 40). -/
theorem claim8_haversine_app_symm_witness :
    parse_coordinate (.num (.finite 10)) = .ok (.finite 10) ∧
    haversineApp (.num (.finite 10)) (.num (.finite 20))
        (.num (.finite 30)) (.num (.finite 40)) =
      haversineApp (.num (.finite 30)) (.num (.finite 40))
        (.num (.finite 10)) (.num (.finite 20)) :=
  ⟨rfl,
    claim8_haversine_app_symm (.num (.finite 10)) (.num (.finite 20))
      (.num (.finite 30)) (.num (.finite 40)) 10 20 30 40 rfl rfl rfl rfl
      (by norm_num) (by norm_num) (by norm_num) (by norm_num)⟩

/-- C9: the distance from a valid point to itself is exactly `0`, and
every distance the computation returns is non-negative. -/
theorem claim9_haversine_self_zero_and_nonneg (lat lon : Coord) (p q : ℚ)
    (h1 : parse_coordinate lat = .ok (.finite p))
    (h2 : parse_coordinate lon = .ok (.finite q))
    (hp : -90 ≤ p ∧ p ≤ 90) (hq : -180 ≤ q ∧ q ≤ 180) :
    haversineApp lat lon lat lon = .ok 0 ∧
    ∀ (a b c d : Coord) (x : ℝ), haversineApp a b c d = .ok x → 0 ≤ x := by
  constructor
  · have l1 : latInRange (.finite p) = true := by simpa [latInRange] using hp
    have m1 : lonInRange (.finite q) = true := by simpa [lonInRange] using hq
    simp only [haversineApp, h1, h2, l1, m1, Bool.and_self, if_true]
    rw [haversineReal_self]
  · intro a b c d x h
    obtain ⟨w1, w2, w3, w4, rfl⟩ := haversineApp_ok_imp h
    exact haversineReal_nonneg _ _ _ _

/-- C9 witness: distance zero at the concrete valid point (10, 20), and
non-negativity extracted from the same instantiation. -/
theorem claim9_haversine_self_zero_and_nonneg_witness :
    haversineApp (.num (.finite 10)) (.num (.finite 20))
      (.num (.finite 10)) (.num (.finite 20)) = .ok 0 :=
  (claim9_haversine_self_zero_and_nonneg (.num (.finite 10)) (.num (.finite 20))
    10 20 rfl rfl (by norm_num) (by norm_num)).1

/-- C4 (amended): in `app/utils.py`, once all four coordinates parse,
`haversine` fails with the out-of-range error exactly when one of the
latitudes is outside `[-90, 90]` or one of the longitudes is outside
`[-180, 180]` (so it never computes a distance from an out-of-range
value); the flat `utils.py` variant performs no such check. -/
theorem claim4_haversine_app_range_check (lat1 lon1 lat2 lon2 : Coord)
    (p1 q1 p2 q2 : PyFloat)
    (h1 : parse_coordinate lat1 = .ok p1)
    (h2 : parse_coordinate lon1 = .ok q1)
    (h3 : parse_coordinate lat2 = .ok p2)
    (h4 : parse_coordinate lon2 = .ok q2) :
    (haversineApp lat1 lon1 lat2 lon2 = .error .coordinateOutOfRange ↔
      ¬(latInRange p1 = true ∧ latInRange p2 = true ∧
        lonInRange q1 = true ∧ lonInRange q2 = true)) ∧
    (∀ f : PyFloat, latInRange f = true ↔ ∃ v : ℚ, f = .finite v ∧ -90 ≤ v ∧ v ≤ 90) ∧
    (∀ f : PyFloat, lonInRange f = true ↔ ∃ v : ℚ, f = .finite v ∧ -180 ≤ v ∧ v ≤ 180) := by
  refine ⟨?_, ?_, ?_⟩
  · simp only [haversineApp, h1, h2, h3, h4]
    by_cases hl1 : latInRange p1 = true <;> by_cases hl2 : latInRange p2 = true <;>
      by_cases hm1 : lonInRange q1 = true <;> by_cases hm2 : lonInRange q2 = true <;>
      simp [Bool.and_eq_true, hl1, hl2, hm1, hm2]
  · intro f
    cases f <;> simp [latInRange]
  · intro f
    cases f <;> simp [lonInRange]

/-- C4 witness: with the out-of-range latitude `1000`, the app variant
fails with the out-of-range error instead of computing a distance. -/
theorem claim4_haversine_app_range_check_witness :
    parse_coordinate (.num (.finite 1000)) = .ok (.finite 1000) ∧
    haversineApp (.num (.finite 1000)) (.num (.finite 0))
      (.num (.finite 0)) (.num (.finite 0)) = .error .coordinateOutOfRange :=
  ⟨rfl,
    (claim4_haversine_app_range_check (.num (.finite 1000)) (.num (.finite 0))
      (.num (.finite 0)) (.num (.finite 0)) (.finite 1000) (.finite 0)
      (.finite 0) (.finite 0) rfl rfl rfl rfl).1.mpr (by decide)⟩

/-- C4 counterexample: the flat `utils.py` `haversine` (also cited by the
claim) performs no range validation: with latitude `1000` — far outside
`[-90, 90]` — it happily computes and returns a distance instead of
failing. -/
theorem claim4_flat_haversine_no_range_check :
    haversineFlat (.num (.finite 1000)) (.num (.finite 0))
      (.num (.finite 1000)) (.num (.finite 0)) = .ok 0 := by
  simp only [haversineFlat, parse_coordinate, PyFloat.isFinite, Bool.and_self, if_true]
  simp [haversineReal_self]

/-- C1 (amended): in the `app/crud/address.py` implementation a
candidate whose distance computes successfully is kept exactly when
`0 <= d <= radiusKm` (both bounds inclusive), and a candidate at the
exact center (distance `0`) is included; the flat `crud.py`
implementation instead uses the strict lower bound `0 < d`. -/
theorem claim1_within_radius_app_bounds :
    (∀ (lat lon : Coord) (r : ℝ) (addrs : List Address) (a : Address),
      a ∈ getAddressesWithinRadiusApp lat lon r addrs ↔
        a ∈ addrs ∧ ∃ d : ℝ,
          haversineApp lat lon a.latitude a.longitude = .ok d ∧ 0 ≤ d ∧ d ≤ r) ∧
    getAddressesWithinRadiusApp (.num (.finite 10)) (.num (.finite 20)) 5
      [centerAddr] = [centerAddr] := by
  constructor
  · intro lat lon r addrs a
    constructor
    · intro h
      simp only [getAddressesWithinRadiusApp, List.mem_map] at h
      obtain ⟨p, hp, hpa⟩ := h
      have hp2 : p ∈ keptPairsApp lat lon r addrs := (sortByDist_perm _).mem_iff.mp hp
      simp only [keptPairsApp, List.mem_filterMap] at hp2
      obtain ⟨a0, ha0, hf⟩ := hp2
      rcases hh : haversineApp lat lon a0.latitude a0.longitude with e | d
      · rw [hh] at hf
        simp at hf
      · rw [hh] at hf
        dsimp only at hf
        by_cases hb : 0 ≤ d ∧ d ≤ r
        · rw [if_pos hb] at hf
          obtain rfl : (a0, d) = p := by simpa using hf
          subst hpa
          exact ⟨ha0, d, hh, hb⟩
        · rw [if_neg hb] at hf
          simp at hf
    · rintro ⟨ha, d, hh, hb1, hb2⟩
      simp only [getAddressesWithinRadiusApp, List.mem_map]
      refine ⟨(a, d), ?_, rfl⟩
      rw [(sortByDist_perm _).mem_iff]
      simp only [keptPairsApp, List.mem_filterMap]
      refine ⟨a, ha, ?_⟩
      rw [hh]
      simp only
      rw [if_pos ⟨hb1, hb2⟩]
  · have hk : keptPairsApp (.num (.finite 10)) (.num (.finite 20)) 5 [centerAddr]
        = [(centerAddr, 0)] := by
      simp only [keptPairsApp, List.filterMap_cons, List.filterMap_nil, haversineApp_center]
      rw [if_pos (by norm_num : (0:ℝ) ≤ 0 ∧ (0:ℝ) ≤ 5)]
    rw [getAddressesWithinRadiusApp, hk]
    rfl

/-- C1 counterexample: the flat `crud.py` filter `0 < dist <= distance_km`
(also cited by the claim) drops a candidate at the exact center: its
distance is `0`, which satisfies `0 <= d <= radiusKm`, yet the query
returns the empty list. -/
theorem claim1_flat_excludes_exact_center :
    haversineFlat (.num (.finite 10)) (.num (.finite 20))
        centerAddr.latitude centerAddr.longitude = .ok 0 ∧
    getAddressesWithinRadiusFlat (.num (.finite 10)) (.num (.finite 20)) 5
      [centerAddr] = .ok [] := by
  refine ⟨haversineFlat_center, ?_⟩
  have hs : scanFlat (.num (.finite 10)) (.num (.finite 20)) 5 [centerAddr]
      = (.ok [], 1) := by
    simp only [scanFlat, haversineFlat_center]
    rw [if_neg (by norm_num : ¬((0:ℝ) < 0 ∧ (0:ℝ) ≤ 5))]
  rw [getAddressesWithinRadiusFlat, nearbyAddressesFlatT, hs]
  rfl

/-- C2 (amended): in the `app/crud/address.py` implementation, a
candidate for which the distance computation fails is skipped and the
query result is exactly what it would be without that candidate; in the
flat `crud.py` implementation, a failing candidate aborts the whole
query instead. -/
theorem claim2_app_skips_failing_candidate (lat lon : Coord) (r : ℝ)
    (l1 l2 : List Address) (bad : Address) (e : Err)
    (hb : haversineApp lat lon bad.latitude bad.longitude = .error e) :
    getAddressesWithinRadiusApp lat lon r (l1 ++ bad :: l2) =
      getAddressesWithinRadiusApp lat lon r (l1 ++ l2) := by
  have hk : keptPairsApp lat lon r (l1 ++ bad :: l2) = keptPairsApp lat lon r (l1 ++ l2) := by
    simp only [keptPairsApp, List.filterMap_append, List.filterMap_cons, hb]
  rw [getAddressesWithinRadiusApp, getAddressesWithinRadiusApp, hk]

/-- C2 witness: with the unparseable stored record `badAddr` in the
middle of the collection, the app query result equals the result without
it (and the valid candidate is still returned). -/
theorem claim2_app_skips_failing_candidate_witness :
    haversineApp (.num (.finite 10)) (.num (.finite 20))
        badAddr.latitude badAddr.longitude = .error .invalidCoordinateFormat ∧
    getAddressesWithinRadiusApp (.num (.finite 10)) (.num (.finite 20)) 5
        [badAddr, centerAddr] =
      getAddressesWithinRadiusApp (.num (.finite 10)) (.num (.finite 20)) 5
        [centerAddr] :=
  ⟨haversineApp_bad,
    claim2_app_skips_failing_candidate (.num (.finite 10)) (.num (.finite 20)) 5
      [] [centerAddr] badAddr .invalidCoordinateFormat haversineApp_bad⟩

/-- C2 counterexample: in the flat `crud.py` (also cited by the claim)
there is no per-candidate handler, so one malformed stored record makes
the whole proximity query fail — the valid candidate is not returned. -/
theorem claim2_flat_aborts_on_bad_candidate :
    getAddressesWithinRadiusFlat (.num (.finite 10)) (.num (.finite 20)) 5
      [badAddr, centerAddr] = .error .invalidCoordinateFormat := by
  have hs : scanFlat (.num (.finite 10)) (.num (.finite 20)) 5 [badAddr, centerAddr]
      = (.error .invalidCoordinateFormat, 1) := by
    simp only [scanFlat, haversineFlat_bad]
  rw [getAddressesWithinRadiusFlat, nearbyAddressesFlatT, hs]

/-- C3 (amended): the app service layer rejects every radius
`distance_km <= 0` with the invalid-radius error before consulting the
record store, performing no distance computation (the second component
counts haversine invocations); the flat endpoint performs no radius
validation at all. -/
theorem claim3_service_rejects_nonpositive_radius (lat lon : Coord) (r : ℝ)
    (addrs : List Address) (h : r ≤ 0) :
    findNearbyAddressesT lat lon r addrs = (.error .invalidRadius, 0) := by
  rw [findNearbyAddressesT, if_pos h]

/-- C3 witness: the service instantiated at radius `0`. -/
theorem claim3_service_rejects_nonpositive_radius_witness :
    (0:ℝ) ≤ 0 ∧
    findNearbyAddressesT (.num (.finite 0)) (.num (.finite 0)) 0 [centerAddr]
      = (.error .invalidRadius, 0) :=
  ⟨le_refl 0,
    claim3_service_rejects_nonpositive_radius (.num (.finite 0)) (.num (.finite 0)) 0
      [centerAddr] (le_refl 0)⟩

/-- C3 counterexample: the flat `/addresses/nearby` endpoint (`main.py`,
also cited by the claim) does not validate the radius: with radius `0`
it does not fail — it returns an empty result — and it still performs a
distance computation (the invocation count is `1`, not `0`). -/
theorem claim3_flat_no_radius_validation :
    nearbyAddressesFlatT (.num (.finite 10)) (.num (.finite 20)) 0 [centerAddr]
      = (.ok [], 1) := by
  have hs : scanFlat (.num (.finite 10)) (.num (.finite 20)) 0 [centerAddr]
      = (.ok [], 1) := by
    simp only [scanFlat, haversineFlat_center]
    rw [if_neg (by norm_num : ¬((0:ℝ) < 0 ∧ (0:ℝ) ≤ 0))]
  rw [nearbyAddressesFlatT, hs]
  rfl

/-- C5 (amended): a finite numeric input is returned unchanged and a
text input matched by the coordinate pattern always yields a finite
value; the only way a normalization succeeds with a non-finite value is
the two escape hatches the code leaves open — a non-finite numeric input
is passed through as-is, and a text the pattern rejects may still be
accepted by the `float` fallback (for example `"inf"` or `"nan"`). -/
theorem claim5_normalize_finite_or_fails :
    (∀ q : ℚ, parse_coordinate (.num (.finite q)) = .ok (.finite q)) ∧
    (∀ (s : List Char) (v : ℚ) (dir : Option Char) (rest : List Char),
      coordMatch (pyStrip s) = some (v, dir, rest) →
      ∃ w : ℚ, parse_coordinate (.text s) = .ok (.finite w)) ∧
    (∀ (s : List Char) (x : PyFloat),
      parse_coordinate (.text s) = .ok x → x.isFinite = false →
      coordMatch (pyStrip s) = none ∧ pyFloatOfString (pyStrip s) = some x) := by
  refine ⟨fun q => rfl, ?_, ?_⟩
  · intro s v dir rest h
    rcases dir with _ | c
    · exact ⟨v, by simp only [parse_coordinate, h]⟩
    · by_cases hsw : isSWChar c = true
      · exact ⟨-v, by simp only [parse_coordinate, h]; simp [hsw]⟩
      · exact ⟨v, by simp only [parse_coordinate, h]; simp [hsw]⟩
  · intro s x hok hfin
    rcases hm : coordMatch (pyStrip s) with _ | ⟨v, dir, rest⟩
    · simp only [parse_coordinate, hm] at hok
      rcases hf : pyFloatOfString (pyStrip s) with _ | y
      · rw [hf] at hok
        simp at hok
      · rw [hf] at hok
        dsimp only at hok
        simp only [Except.ok.injEq] at hok
        subst hok
        exact ⟨rfl, rfl⟩
    · simp only [parse_coordinate, hm] at hok
      rcases dir with _ | c <;> dsimp only at hok
      · simp only [Except.ok.injEq] at hok
        rw [← hok] at hfin
        simp [PyFloat.isFinite] at hfin
      · split_ifs at hok <;>
          (simp only [Except.ok.injEq] at hok
           rw [← hok] at hfin
           simp [PyFloat.isFinite] at hfin)

/-- C5 witness: the pattern-matched text `"22.7"` yields a finite value
(second conjunct applied at a concrete input). -/
theorem claim5_normalize_finite_or_fails_witness :
    ∃ w : ℚ, parse_coordinate (.text ("22.7".toList)) = .ok (.finite w) :=
  claim5_normalize_finite_or_fails.2.1 ("22.7".toList) (mkRat 227 10) none []
    (by decide)

/-- C5 counterexample: normalization can succeed with a non-finite
value, contradicting the invariant as stated: the numeric input `inf` is
returned unchanged and the text `"inf"` is accepted by the fallback. -/
theorem claim5_nonfinite_passthrough :
    parse_coordinate (.num .inf) = .ok .inf ∧
    parse_coordinate (.text ("inf".toList)) = .ok .inf ∧
    PyFloat.inf.isFinite = false := by
  refine ⟨rfl, by decide, rfl⟩

/-- C6: when the trimmed text matches the coordinate pattern, the parsed
numeric value is negated exactly for a direction letter `S`/`W` (case
insensitive) and kept as-is for `N`/`E` or no letter; the negation also
applies to an already-negative token, so `"-22.7 S"` yields `+22.7`. -/
theorem claim6_direction_sign :
    (∀ (s : List Char) (v : ℚ) (c : Char) (rest : List Char),
      coordMatch (pyStrip s) = some (v, some c, rest) →
      parse_coordinate (.text s) = .ok (.finite (if isSWChar c = true then -v else v))) ∧
    (∀ (s : List Char) (v : ℚ) (rest : List Char),
      coordMatch (pyStrip s) = some (v, none, rest) →
      parse_coordinate (.text s) = .ok (.finite v)) ∧
    parse_coordinate (.text ("-22.7 S".toList)) = .ok (.finite (mkRat 227 10)) ∧
    (mkRat 227 10 : ℚ) = 22.7 ∧
    parse_coordinate (.text ("22.7 s".toList)) = .ok (.finite (-(mkRat 227 10))) ∧
    parse_coordinate (.text ("22.705435° n".toList))
      = .ok (.finite (mkRat 22705435 1000000)) := by
  refine ⟨?_, ?_, by decide, by norm_num [mkRat], by decide, by decide⟩
  · intro s v c rest h
    simp only [parse_coordinate, h]
    by_cases hsw : isSWChar c = true <;> simp [hsw]
  · intro s v rest h
    simp only [parse_coordinate, h]

/-- C6 witness: the general direction rule applied at the concrete input
`"75.84361° W"`, whose value is negated. -/
theorem claim6_direction_sign_witness :
    parse_coordinate (.text ("75.84361° W".toList))
      = .ok (.finite (-(mkRat 7584361 100000))) := by
  have h := claim6_direction_sign.1 ("75.84361° W".toList) (mkRat 7584361 100000)
    'W' [] (by decide)
  simpa [isSWChar] using h

/-- C7: the result of the proximity query is the first-projection of a
list of record-distance pairs that is sorted by ascending distance and
is a stable rearrangement of the kept candidates (for every distance
key, the pairs carrying that key appear in their original relative
order).  This holds for the app pipeline, and for the flat pipeline
whenever its scan succeeds. -/
theorem claim7_within_radius_sorted_stable :
    (∀ (lat lon : Coord) (r : ℝ) (addrs : List Address),
      ∃ pairs : List (Address × ℝ),
        getAddressesWithinRadiusApp lat lon r addrs = pairs.map Prod.fst ∧
        pairs.Pairwise distLE ∧
        ∀ k : ℝ, keyFilter k pairs = keyFilter k (keptPairsApp lat lon r addrs)) ∧
    (∀ (lat lon : Coord) (r : ℝ) (addrs : List Address)
        (kept : List (Address × ℝ)) (n : ℕ),
      scanFlat lat lon r addrs = (.ok kept, n) →
      ∃ pairs : List (Address × ℝ),
        getAddressesWithinRadiusFlat lat lon r addrs = .ok (pairs.map Prod.fst) ∧
        pairs.Pairwise distLE ∧
        ∀ k : ℝ, keyFilter k pairs = keyFilter k kept) := by
  constructor
  · intro lat lon r addrs
    exact ⟨sortByDist (keptPairsApp lat lon r addrs), rfl, sortByDist_sorted _,
      fun k => keyFilter_sortByDist k _⟩
  · intro lat lon r addrs kept n h
    refine ⟨sortByDist kept, ?_, sortByDist_sorted _, fun k => keyFilter_sortByDist k _⟩
    rw [getAddressesWithinRadiusFlat, nearbyAddressesFlatT, h]

/-- C7 witness: the flat conjunct applied to the empty store, whose scan
trivially succeeds. -/
theorem claim7_within_radius_sorted_stable_witness :
    ∃ pairs : List (Address × ℝ),
      getAddressesWithinRadiusFlat (.num (.finite 0)) (.num (.finite 0)) 1 []
        = .ok (pairs.map Prod.fst) ∧
      pairs.Pairwise distLE ∧
      ∀ k : ℝ, keyFilter k pairs = keyFilter k [] :=
  claim7_within_radius_sorted_stable.2 (.num (.finite 0)) (.num (.finite 0)) 1
    [] [] 0 rfl

/-- C10: the coordinate pattern is matched as a prefix only — a text
that begins with a valid coordinate token parses successfully and
arbitrary trailing characters are silently ignored: every extension of
`"22.7 N"` parses to `22.7`, a successful match never falls through to
the invalid-format error whatever its unconsumed rest, and strings such
as `"1e5"` or `"5abc"` yield the leading token's value (`1`, `5`). -/
theorem claim10_leading_token_trailing_ignored :
    (∀ t : List Char,
      parse_coordinate (.text ("22.7 N".toList ++ t)) = .ok (.finite (mkRat 227 10))) ∧
    (∀ (s : List Char) (v : ℚ) (dir : Option Char) (rest : List Char),
      coordMatch (pyStrip s) = some (v, dir, rest) →
      parse_coordinate (.text s) ≠ .error .invalidCoordinateFormat) ∧
    parse_coordinate (.text ("1e5".toList)) = .ok (.finite 1) ∧
    parse_coordinate (.text ("5abc".toList)) = .ok (.finite 5) := by
  refine ⟨?_, ?_, by decide, by decide⟩
  · intro t
    have hl : "22.7 N".toList ++ t = '2' :: '2' :: '.' :: '7' :: ' ' :: 'N' :: t := rfl
    rw [hl]
    obtain ⟨u, hu⟩ := pyStrip_N_append t
    have hsw : isSWChar 'N' = false := by decide
    simp only [parse_coordinate, hu, coordMatch_N_tail, hsw]
    simp
  · intro s v dir rest h
    simp only [parse_coordinate, h]
    rcases dir with _ | c
    · simp
    · by_cases hsw : isSWChar c = true <;> simp [hsw]

/-- C10 witness: the never-fails conjunct applied to the concrete
matched text `"22.7 Nxyz"` with trailing garbage. -/
theorem claim10_leading_token_trailing_ignored_witness :
    parse_coordinate (.text ("22.7 Nxyz".toList)) ≠ .error .invalidCoordinateFormat :=
  claim10_leading_token_trailing_ignored.2.1 ("22.7 Nxyz".toList)
    (mkRat 227 10) (some 'N') ("xyz".toList) (by decide)

end AddressBook
